import Mathlib

/-!
Shallow embedding of the thread aggregation and enrichment pipeline of
`apps/web/app/api/outlook/threads/controller.ts`,
`apps/web/app/api/outlook/threads/route.ts` and
`apps/web/app/api/v1/reply-tracker/route.ts`.

JavaScript optional values (`undefined`/`null`) are modelled as `Option`;
JavaScript truthiness on strings (`if (s)`, `s || d`) is modelled by an
explicit emptiness test; fallible asynchronous calls are modelled as
`Option`/`Except`-valued oracles passed in as parameters; `Promise.all`
over fallible per-item tasks is modelled as a fail-fast list traversal in
the `Except` monad.
-/

/-- JavaScript truthiness of an optional string: `undefined`, `null` and
the empty string are falsy; every other string is truthy. -/
def truthyStr : Option String → Bool
  | some s => !(s == "")
  | none => false

/-- JavaScript `x || 50` on an optional numeric limit: `undefined` and `0`
are falsy and give the default `50`. -/
def optLimit : Option Nat → Nat
  | some n => if n == 0 then 50 else n
  | none => 50

/-!
Modelled from the spec: the `GmailLabel` string constants
(`@/utils/gmail/label` is not under src). The spec's archive scenario
fixes the INBOX value via the exact query string `-label:INBOX`; the
remaining constants are the standard Gmail system label identifiers
named by the spec's type enum.
-/
namespace GmailLabel

def INBOX : String := "INBOX"

def SENT : String := "SENT"

def DRAFT : String := "DRAFT"

def TRASH : String := "TRASH"

def SPAM : String := "SPAM"

def STARRED : String := "STARRED"

def IMPORTANT : String := "IMPORTANT"

def UNREAD : String := "UNREAD"

end GmailLabel

/-- The unified thread query accepted by `getThreads`
(`ThreadsQuery` from the validation schema: the fields the controller
reads). All fields are optional query parameters. -/
structure ThreadsQuery where
  q : Option String
  fromEmail : Option String
  type : Option String
  labelId : Option String
  limit : Option Nat
  nextPageToken : Option String
deriving Repr, DecidableEq

/-- `getQuery` inside `getThreads` (controller.ts lines 35-46): free-text
query wins, else a `from:` filter, else `-label:INBOX` for the archive
type, else no search string. -/
def getQuery (query : ThreadsQuery) : Option String :=
  if truthyStr query.q then query.q
  else if truthyStr query.fromEmail then
    some ("from:" ++ query.fromEmail.getD "")
  else if query.type == some "archive" then
    some ("-label:" ++ GmailLabel.INBOX)
  else none

/-- `getLabelIds` (controller.ts lines 202-229): the `switch` over the
`type` string. `null`/`undefined` fall to the default case where the
falsy check returns the INBOX label; the literal strings `"undefined"`
and `"null"` likewise; any other unrecognized string is used verbatim as
a label id. -/
def getLabelIds (type : Option String) : Option (List String) :=
  match type with
  | none => some [GmailLabel.INBOX]
  | some s =>
    if s == "inbox" then some [GmailLabel.INBOX]
    else if s == "sent" then some [GmailLabel.SENT]
    else if s == "draft" then some [GmailLabel.DRAFT]
    else if s == "trash" then some [GmailLabel.TRASH]
    else if s == "spam" then some [GmailLabel.SPAM]
    else if s == "starred" then some [GmailLabel.STARRED]
    else if s == "important" then some [GmailLabel.IMPORTANT]
    else if s == "unread" then some [GmailLabel.UNREAD]
    else if s == "archive" then none
    else if s == "all" then none
    else if s == "" || s == "undefined" || s == "null" then
      some [GmailLabel.INBOX]
    else some [s]

/-- The request `getThreads` hands to `getThreadsWithNextPageToken`
(controller.ts lines 48-55). -/
structure GmailListRequest where
  searchQ : Option String
  labelIds : Option (List String)
  maxResults : Nat
  pageToken : Option String
deriving Repr, DecidableEq

/-- Translation of a `ThreadsQuery` into the Gmail list request
(controller.ts lines 48-55): `q := getQuery()`,
`labelIds := query.labelId ? [query.labelId] : getLabelIds(query.type)`,
`maxResults := query.limit || 50`,
`pageToken := query.nextPageToken || undefined`. -/
def gmailRequest (query : ThreadsQuery) : GmailListRequest :=
  ⟨getQuery query,
   if truthyStr query.labelId then query.labelId.map (fun l => [l])
   else getLabelIds query.type,
   optLimit query.limit,
   if truthyStr query.nextPageToken then query.nextPageToken else none⟩

/-- One entry of the provider's thread-list page; the provider may omit
the id. -/
structure GmailApiThread where
  id : Option String
deriving Repr, DecidableEq

/-- The page returned by `getThreadsWithNextPageToken`: the provider's
thread summaries (the whole list may be absent) and the provider's
native next-page cursor. -/
structure GmailPage where
  threads : Option (List GmailApiThread)
  nextPageToken : Option String
deriving Repr, DecidableEq

/-- `gmailThreads?.map((t) => t.id).filter(isDefined) || []`
(controller.ts line 57). -/
def pageThreadIds (page : GmailPage) : List String :=
  (page.threads.getD []).filterMap (fun t => t.id)

/-- Per-thread content fetched by the batch loader: the thread's own
summary snippet (raw, provider-encoded). -/
structure GmailThreadData where
  snippet : Option String
deriving Repr, DecidableEq

/-- A full thread as returned by the batch loader: the provider object
carries its own id and snippet fields. -/
structure FullGmailThread where
  id : Option String
  snippet : Option String
deriving Repr, DecidableEq

/-- Modelled from the spec: `getThreadsBatch` (`@/utils/gmail/thread` is
not under src). Per spec section 4.3 the batch message loader returns a
mapping keyed by the requested thread identifiers; a per-thread fetch
failure drops that thread from the result rather than failing the page;
results are keyed by the requested identifier, presented in request
order (section 4.6 iterates the provider-ordered identifier sequence).
The per-thread fetch oracle returns `none` on failure. -/
def getThreadsBatch (fetch : String → Option GmailThreadData)
    (threadIds : List String) : List FullGmailThread :=
  threadIds.filterMap (fun i => (fetch i).map (fun d => ⟨some i, d.snippet⟩))

/-- The prisma `ExecutedRuleStatus` enum. -/
inductive ExecutedRuleStatus where
  | PENDING
  | SKIPPED
  | APPLIED
  | REJECTED
deriving Repr, DecidableEq, BEq

/-- An automation record row of the local store (the fields the
controller's `select` keeps, plus the `emailAccountId` the `where`
clause filters on). -/
structure ExecutedRuleRecord where
  id : String
  messageId : String
  threadId : String
  emailAccountId : String
  status : ExecutedRuleStatus
deriving Repr, DecidableEq

/-- The `prisma.executedRule.findMany` call (controller.ts lines 61-79
and 156-173): rows of the store filtered to the account, to the page's
thread ids, and to status PENDING or SKIPPED, in store order. -/
def findExecutedRules (store : List ExecutedRuleRecord)
    (emailAccountId : String) (threadIds : List String) :
    List ExecutedRuleRecord :=
  store.filter (fun r =>
    r.emailAccountId == emailAccountId &&
    threadIds.contains r.threadId &&
    (r.status == ExecutedRuleStatus.PENDING ||
     r.status == ExecutedRuleStatus.SKIPPED))

/-- Header fields of a parsed message. -/
structure MessageHeaders where
  subject : Option String
  fromAddr : Option String
  date : Option String
deriving Repr, DecidableEq

/-- A parsed message as produced by `parseMessages`. -/
structure ParsedMessage where
  headers : MessageHeaders
  snippet : Option String
deriving Repr, DecidableEq

/-- One thread of the unified `getThreads` response
(controller.ts lines 90-96). -/
structure GmailThreadOut where
  id : String
  messages : List ParsedMessage
  snippet : String
  plan : Option ExecutedRuleRecord
  category : Option String
deriving Repr, DecidableEq

/-- The `getThreads` response shape (controller.ts lines 100-103). -/
structure GmailThreadsResult where
  threads : List GmailThreadOut
  nextPageToken : Option String
deriving Repr, DecidableEq

/-- The per-thread assembly step inside `getThreads`
(controller.ts lines 83-97): `const id = thread.id; if (!id) return;`
then build the output record; `parse` stands for `parseMessages` and
`decodeSnippet` for the snippet normalizer (both outside src, passed as
oracles). -/
def assembleGmailThread (parse : FullGmailThread → List ParsedMessage)
    (decodeSnippet : Option String → String)
    (plans : List ExecutedRuleRecord)
    (category : String → Option String)
    (thread : FullGmailThread) : Option GmailThreadOut :=
  match thread.id with
  | none => none
  | some i =>
    if i == "" then none
    else
      some ⟨i, parse thread, decodeSnippet thread.snippet,
            plans.find? (fun p => p.threadId == i), category i⟩

/-- The body of `getThreads` after the provider page is in hand
(controller.ts lines 57-103): derive the page's thread ids, batch-load
the full threads, query the record store, assemble each thread
(dropping entries via `filter(isDefined)`), and pass the provider's
cursor through. -/
def getThreadsCore (emailAccountId : String) (page : GmailPage)
    (fetch : String → Option GmailThreadData)
    (parse : FullGmailThread → List ParsedMessage)
    (decodeSnippet : Option String → String)
    (store : List ExecutedRuleRecord)
    (category : String → Option String) : GmailThreadsResult :=
  let threadIds := pageThreadIds page
  let threads := getThreadsBatch fetch threadIds
  let plans := findExecutedRules store emailAccountId threadIds
  ⟨threads.filterMap (assembleGmailThread parse decodeSnippet plans category),
   page.nextPageToken⟩

/-- `getThreads` (controller.ts lines 22-104): throws `SafeError` when
the access token is falsy, otherwise calls the provider with the
translated request and assembles the page. `prov` stands for the
provider client behind `getThreadsWithNextPageToken` (outside src;
modelled from the spec as returning the provider page and its native
cursor). -/
def getThreads (accessToken : String) (emailAccountId : String)
    (query : ThreadsQuery)
    (prov : GmailListRequest → GmailPage)
    (fetch : String → Option GmailThreadData)
    (parse : FullGmailThread → List ParsedMessage)
    (decodeSnippet : Option String → String)
    (store : List ExecutedRuleRecord)
    (category : String → Option String) : Except String GmailThreadsResult :=
  if accessToken == "" then Except.error "Missing access token"
  else
    Except.ok (getThreadsCore emailAccountId (prov (gmailRequest query))
      fetch parse decodeSnippet store category)

/-- The query accepted by `getOutlookThreads`
(controller.ts lines 112-119). -/
structure OutlookQuery where
  q : Option String
  fromEmail : Option String
  type : Option String
  limit : Option Nat
  nextPageToken : Option String
  folderId : Option String
deriving Repr, DecidableEq

/-- `getFilter` inside `getOutlookThreads` (controller.ts lines 127-137):
pushes a `contains(subject,...)` sub-filter when `q` is truthy AND a
`from/emailAddress/address eq ...` sub-filter when `fromEmail` is
truthy, joined by `" and "`; no filter when both absent. -/
def getFilter (query : OutlookQuery) : Option String :=
  let filters : List String :=
    (if truthyStr query.q then
       ["contains(subject,\x27" ++ query.q.getD "" ++ "\x27)"]
     else []) ++
    (if truthyStr query.fromEmail then
       ["from/emailAddress/address eq \x27" ++ query.fromEmail.getD "" ++ "\x27"]
     else [])
  if filters.isEmpty then none
  else some (String.intercalate " and " filters)

/-- The request `getOutlookThreads` issues to the Graph client
(controller.ts lines 140-148): `.top(query.limit || 50)`, the
`skipToken` header when `query.nextPageToken` is truthy, and the
`$filter` expression when `getFilter()` is truthy. -/
structure GraphRequest where
  top : Nat
  skipTokenHeader : Option String
  filter : Option String
deriving Repr, DecidableEq

/-- Translation of an `OutlookQuery` into the Graph request
(controller.ts lines 140-148). -/
def buildGraphRequest (query : OutlookQuery) : GraphRequest :=
  ⟨optLimit query.limit,
   if truthyStr query.nextPageToken then query.nextPageToken else none,
   getFilter query⟩

/-- One conversation of the Graph `/me/conversations` page (the
controller reads only `c.id`). -/
structure Conversation where
  id : String
deriving Repr, DecidableEq

/-- The Graph list response: `response.value || []` and
`response["@odata.nextLink"] || null` (controller.ts lines 151-152). -/
structure GraphListResponse where
  value : Option (List Conversation)
  odataNextLink : Option String
deriving Repr, DecidableEq

/-- One message object of a conversation's messages response (the
controller reads only `bodyPreview`). -/
structure OutlookMessage where
  bodyPreview : Option String
deriving Repr, DecidableEq

/-- The Graph `/me/conversations/{id}/threads` response:
`messagesRes.value || []` (controller.ts line 182). -/
structure GraphMessagesResponse where
  value : Option (List OutlookMessage)
deriving Repr, DecidableEq

/-- One thread of the `getOutlookThreads` response
(controller.ts lines 186-192). -/
structure OutlookThreadOut where
  id : String
  messages : List OutlookMessage
  snippet : String
  plan : Option ExecutedRuleRecord
  category : Option String
deriving Repr, DecidableEq

/-- The `getOutlookThreads` response shape
(controller.ts lines 196-199). -/
structure OutlookThreadsResult where
  threads : List OutlookThreadOut
  nextPageToken : Option String
deriving Repr, DecidableEq

/-- The per-conversation task inside `getOutlookThreads`
(controller.ts lines 176-193): fetch the conversation's messages (the
oracle returns `none` when the Graph call rejects — there is no
try/catch around it), then build the output record with
`snippet := messages[0]?.bodyPreview || ""`. -/
def assembleOutlookThread (fetchConv : String → Option GraphMessagesResponse)
    (plans : List ExecutedRuleRecord)
    (category : String → Option String)
    (conv : Conversation) : Except String OutlookThreadOut :=
  match fetchConv conv.id with
  | none => Except.error "Failed to fetch conversation messages"
  | some res =>
    let messages := res.value.getD []
    Except.ok ⟨conv.id, messages,
      ((messages.head?.bind (fun m => m.bodyPreview)).getD ""),
      plans.find? (fun p => p.threadId == conv.id), category conv.id⟩

/-- `Promise.all` over a list of fallible per-item tasks: succeeds with
the results in input order when every task succeeds, and rejects the
whole batch as soon as any task rejects. -/
def exceptMapList (f : α → Except String β) : List α → Except String (List β)
  | [] => Except.ok []
  | a :: rest =>
    match f a with
    | Except.error e => Except.error e
    | Except.ok b =>
      match exceptMapList f rest with
      | Except.error e => Except.error e
      | Except.ok bs => Except.ok (b :: bs)

/-- The body of `getOutlookThreads` after the conversations page is in
hand (controller.ts lines 154-194): record-store lookup for the page's
conversation ids, then `Promise.all` over the per-conversation
assembly tasks. -/
def getOutlookThreadsCore (emailAccountId : String)
    (conversations : List Conversation)
    (fetchConv : String → Option GraphMessagesResponse)
    (store : List ExecutedRuleRecord)
    (category : String → Option String) :
    Except String (List OutlookThreadOut) :=
  let conversationIds := conversations.map (fun c => c.id)
  let plans := findExecutedRules store emailAccountId conversationIds
  exceptMapList (assembleOutlookThread fetchConv plans category) conversations

/-- `getOutlookThreads` (controller.ts lines 106-200): throws
`SafeError` when the access token is falsy; otherwise issues the Graph
request, reads `response.value || []` and
`response["@odata.nextLink"] || null`, and assembles the page. -/
def getOutlookThreads (accessToken : String) (emailAccountId : String)
    (query : OutlookQuery)
    (prov : GraphRequest → GraphListResponse)
    (fetchConv : String → Option GraphMessagesResponse)
    (store : List ExecutedRuleRecord)
    (category : String → Option String) :
    Except String OutlookThreadsResult :=
  if accessToken == "" then Except.error "Missing access token"
  else
    let response := prov (buildGraphRequest query)
    let conversations := response.value.getD []
    let nextPageToken :=
      if truthyStr response.odataNextLink then response.odataNextLink
      else none
    match getOutlookThreadsCore emailAccountId conversations fetchConv
        store category with
    | Except.error e => Except.error e
    | Except.ok threads => Except.ok ⟨threads, nextPageToken⟩

/-- The JSON body of the route's HTTP response: either the error payload
`{ error: ... }` or the threads payload. -/
inductive RouteBody where
  | errorBody (msg : String)
  | okBody (r : OutlookThreadsResult)
deriving Repr, DecidableEq

/-- An HTTP response: status code and JSON body. -/
structure HttpResponse where
  status : Nat
  body : RouteBody
deriving Repr, DecidableEq

/-- `NextResponse.json(body)` with no init: Next.js responds with the
default status 200. -/
def nextResponseJson (b : RouteBody) : HttpResponse :=
  ⟨200, b⟩

/-- The outlook threads route handler `GET` (route.ts lines 10-45): the
middleware supplies the account; the account lookup yields an optional
access token; when the token is falsy the handler returns
`NextResponse.json({ error: "Account not found" })` without touching the
provider; otherwise it calls `getOutlookThreads` and wraps the result
(an exception from the controller propagates out of the handler to the
middleware, modelled as `Except.error`). -/
def outlookThreadsGET (emailAccountId : String)
    (accessToken : Option String) (query : OutlookQuery)
    (prov : GraphRequest → GraphListResponse)
    (fetchConv : String → Option GraphMessagesResponse)
    (store : List ExecutedRuleRecord)
    (category : String → Option String) : Except String HttpResponse :=
  if truthyStr accessToken then
    match getOutlookThreads (accessToken.getD "") emailAccountId query prov
        fetchConv store category with
    | Except.error e => Except.error e
    | Except.ok r => Except.ok (nextResponseJson (RouteBody.okBody r))
  else Except.ok (nextResponseJson (RouteBody.errorBody "Account not found"))

/-- A parsed thread as consumed by the reply-tracker route: id plus the
parsed messages (oldest first). -/
structure ParsedThread where
  id : String
  messages : List ParsedMessage
deriving Repr, DecidableEq

/-- One entry of the reply-tracker response
(reply-tracker/route.ts lines 52-58). -/
structure ReplyTrackerEmail where
  threadId : String
  subject : Option String
  fromAddr : Option String
  date : Option String
  snippet : Option String
deriving Repr, DecidableEq

/-- The reply-tracker response mapping
(reply-tracker/route.ts lines 52-58): every field is read from
`thread.messages[thread.messages.length - 1]`, the last message
(`undefined` when the thread has no messages). -/
def replyTrackerEmails (threads : List ParsedThread) :
    List ReplyTrackerEmail :=
  threads.map (fun thread =>
    ⟨thread.id,
     thread.messages.getLast?.bind (fun m => m.headers.subject),
     thread.messages.getLast?.bind (fun m => m.headers.fromAddr),
     thread.messages.getLast?.bind (fun m => m.headers.date),
     thread.messages.getLast?.bind (fun m => m.snippet)⟩)

/-- Projection: the thread-id sequence of a `getThreads` result (empty
when the call failed). -/
def gmailResultIds (r : Except String GmailThreadsResult) : List String :=
  match r with
  | Except.error _ => []
  | Except.ok v => v.threads.map (fun t => t.id)

/-- Projection: the threads of a `getThreads` result (empty when the
call failed). -/
def gmailResultThreads (r : Except String GmailThreadsResult) :
    List GmailThreadOut :=
  match r with
  | Except.error _ => []
  | Except.ok v => v.threads

/-- Projection: the thread-id sequence of a `getOutlookThreads` result
(empty when the call failed). -/
def outlookResultIds (r : Except String OutlookThreadsResult) :
    List String :=
  match r with
  | Except.error _ => []
  | Except.ok v => v.threads.map (fun t => t.id)

/-- Projection: the threads of a `getOutlookThreads` result (empty when
the call failed). -/
def outlookResultThreads (r : Except String OutlookThreadsResult) :
    List OutlookThreadOut :=
  match r with
  | Except.error _ => []
  | Except.ok v => v.threads

/-- Whether a status code is a 2xx success status. -/
def is2xx (n : Nat) : Bool :=
  200 ≤ n && n < 300

theorem intercalate_pair (x y : String) :
    String.intercalate " and " [x, y] = x ++ " and " ++ y := rfl

/-- C9: for a query with `type="archive"`, no labelId, no free-text
query and no fromEmail, the Gmail-style translation produces the search
string exactly `-label:INBOX` and applies no label-id filter, for every
limit and continuation token. -/
theorem claim9_archive_translation (lim : Option Nat) (tok : Option String) :
    (gmailRequest ⟨none, none, some "archive", none, lim, tok⟩).searchQ =
      some "-label:INBOX" ∧
    (gmailRequest ⟨none, none, some "archive", none, lim, tok⟩).labelIds =
      none :=
  ⟨rfl, rfl⟩

/-- C10: the Graph request issued by `getOutlookThreads` depends only on
`q`, `fromEmail`, `limit` and `nextPageToken`; two queries agreeing on
those four fields yield identical Graph requests whatever their `type`
and `folderId`. -/
theorem claim10_graph_request_independence (q1 q2 : OutlookQuery)
    (hq : q1.q = q2.q) (hf : q1.fromEmail = q2.fromEmail)
    (hl : q1.limit = q2.limit) (ht : q1.nextPageToken = q2.nextPageToken) :
    buildGraphRequest q1 = buildGraphRequest q2 := by
  simp only [buildGraphRequest, getFilter, hq, hf, hl, ht]

/-- Witness for C10: two concrete queries differing in `type` and
`folderId` but agreeing on the other four fields produce the same Graph
request. -/
theorem claim10_witness :
    buildGraphRequest ⟨some "report", none, some "inbox", some 5, none,
      some "folder-1"⟩ =
    buildGraphRequest ⟨some "report", none, some "spam", some 5, none,
      none⟩ :=
  claim10_graph_request_independence _ _ rfl rfl rfl rfl

/-- Counterexample for C2: with both `q` and `fromEmail` set, the
Graph-style filter is the conjunction of the subject sub-filter AND the
fromEmail sub-filter — it is not the `q`-only filter, so the request
does not use only the free-text query. -/
theorem claim2_counterexample :
    (buildGraphRequest ⟨some "hello", some "x@y.com", none, none, none,
        none⟩).filter =
      some "contains(subject,\x27hello\x27) and from/emailAddress/address eq \x27x@y.com\x27" ∧
    (buildGraphRequest ⟨some "hello", some "x@y.com", none, none, none,
        none⟩).filter ≠
      some "contains(subject,\x27hello\x27)" := by
  exact ⟨rfl, by decide⟩

/-- C2 (amended): when both the free-text query and `fromEmail` are set
(nonempty), the Gmail-style search string is exactly `q`, but the
Graph-style filter is the conjunction of the `contains(subject,...)`
sub-filter and the `from/emailAddress/address eq ...` sub-filter. -/
theorem claim2_free_text_precedence (qs fe : String) (hq : qs ≠ "")
    (hf : fe ≠ "") (ty labelId tok fid : Option String)
    (lim : Option Nat) :
    (gmailRequest ⟨some qs, some fe, ty, labelId, lim, tok⟩).searchQ =
      some qs ∧
    (buildGraphRequest ⟨some qs, some fe, ty, lim, tok, fid⟩).filter =
      some (("contains(subject,\x27" ++ qs ++ "\x27)") ++ " and " ++
        ("from/emailAddress/address eq \x27" ++ fe ++ "\x27")) := by
  constructor
  · simp [gmailRequest, getQuery, truthyStr, hq]
  · simp [buildGraphRequest, getFilter, truthyStr, hq, hf,
      intercalate_pair]

/-- Witness for C2 (amended): concrete nonempty `q` and `fromEmail`. -/
theorem claim2_witness :
    (gmailRequest ⟨some "hello", some "x@y.com", none, none, none,
        none⟩).searchQ = some "hello" ∧
    (buildGraphRequest ⟨some "hello", some "x@y.com", none, none, none,
        none⟩).filter =
      some (("contains(subject,\x27" ++ "hello" ++ "\x27)") ++ " and " ++
        ("from/emailAddress/address eq \x27" ++ "x@y.com" ++ "\x27")) :=
  claim2_free_text_precedence "hello" "x@y.com" (by decide) (by decide)
    none none none none none

/-- Counterexample for C3: for the unrecognized type `"newsletter"`
(outside the recognized enum) with no labelId, the Gmail-style
translation produces the label-id list `["newsletter"]`, not
`[INBOX]`. -/
theorem claim3_counterexample :
    (gmailRequest ⟨none, none, some "newsletter", none, none,
        none⟩).labelIds = some ["newsletter"] ∧
    some ["newsletter"] ≠ some [GmailLabel.INBOX] := by
  exact ⟨rfl, by decide⟩

/-- C3 (amended): the Gmail-style translation defaults to the INBOX
label list only for an absent/empty type or the literal strings
`"undefined"`/`"null"`; every other type outside the recognized enum is
passed through verbatim as the label-id list `[type]`. With no labelId
given, the request's label-id list is exactly `getLabelIds type`. -/
theorem claim3_default_inbox :
    (∀ t : Option String,
        (t = none ∨ t = some "" ∨ t = some "undefined" ∨
          t = some "null") →
        getLabelIds t = some [GmailLabel.INBOX]) ∧
    (∀ s : String,
        s ∉ (["inbox", "sent", "draft", "trash", "spam", "starred",
              "important", "unread", "archive", "all",
              "", "undefined", "null"] : List String) →
        getLabelIds (some s) = some [s]) ∧
    (∀ ty q fe tok : Option String, ∀ lim : Option Nat,
        (gmailRequest ⟨q, fe, ty, none, lim, tok⟩).labelIds =
          getLabelIds ty) := by
  refine ⟨?_, ?_, ?_⟩
  · rintro t (rfl | rfl | rfl | rfl) <;> rfl
  · intro s hs
    simp only [List.mem_cons, List.not_mem_nil, or_false, not_or] at hs
    obtain ⟨h1, h2, h3, h4, h5, h6, h7, h8, h9, h10, h11, h12, h13⟩ := hs
    simp [getLabelIds, h1, h2, h3, h4, h5, h6, h7, h8, h9, h10, h11,
      h12, h13]
  · intro ty q fe tok lim
    rfl

/-- Witness for C3 (amended): concrete instances of all three parts. -/
theorem claim3_witness :
    getLabelIds (some "undefined") = some [GmailLabel.INBOX] ∧
    getLabelIds (some "newsletter") = some ["newsletter"] ∧
    (gmailRequest ⟨none, none, some "sent", none, none,
        none⟩).labelIds = getLabelIds (some "sent") :=
  ⟨claim3_default_inbox.1 (some "undefined") (Or.inr (Or.inr (Or.inl rfl))),
   claim3_default_inbox.2.1 "newsletter" (by decide),
   claim3_default_inbox.2.2 (some "sent") none none none none⟩

theorem gmail_assemble_map_id (fetch : String → Option GmailThreadData)
    (parse : FullGmailThread → List ParsedMessage)
    (decodeSnippet : Option String → String)
    (plans : List ExecutedRuleRecord)
    (category : String → Option String) (tids : List String) :
    ((getThreadsBatch fetch tids).filterMap
        (assembleGmailThread parse decodeSnippet plans category)).map
        (fun t => t.id) =
      tids.filter (fun i => (fetch i).isSome && !(i == "")) := by
  induction tids with
  | nil => rfl
  | cons i rest ih =>
    simp only [getThreadsBatch, List.filterMap_cons, List.filter_cons] at ih ⊢
    cases h : fetch i with
    | none => simpa [h] using ih
    | some d =>
      by_cases hi : i = ""
      · subst hi
        simpa [h, assembleGmailThread] using ih
      · simpa [h, assembleGmailThread, hi] using ih

theorem gmail_assemble_mem (fetch : String → Option GmailThreadData)
    (parse : FullGmailThread → List ParsedMessage)
    (decodeSnippet : Option String → String)
    (plans : List ExecutedRuleRecord)
    (category : String → Option String) (tids : List String)
    (t : GmailThreadOut)
    (ht : t ∈ (getThreadsBatch fetch tids).filterMap
        (assembleGmailThread parse decodeSnippet plans category)) :
    t.id ∈ tids ∧
      ∃ d, fetch t.id = some d ∧ t.snippet = decodeSnippet d.snippet := by
  rcases List.mem_filterMap.mp ht with ⟨th, hth, hassemble⟩
  rcases List.mem_filterMap.mp hth with ⟨i, hi, hmap⟩
  cases hf : fetch i with
  | none => rw [hf] at hmap; cases hmap
  | some d =>
    rw [hf] at hmap
    simp only [Option.map_some'] at hmap
    injection hmap with hmap
    subst hmap
    simp only [assembleGmailThread] at hassemble
    by_cases hi0 : i = ""
    · simp [hi0] at hassemble
    · rw [if_neg (by simpa using hi0)] at hassemble
      injection hassemble with hassemble
      subst hassemble
      exact ⟨hi, d, hf, rfl⟩

theorem exceptMapList_ok_map {α β γ : Type} (f : α → Except String β)
    (g : β → γ) (h : α → γ)
    (hfg : ∀ a b, f a = Except.ok b → g b = h a) (l : List α) :
    ∀ bs : List β, exceptMapList f l = Except.ok bs →
      bs.map g = l.map h := by
  induction l with
  | nil =>
    intro bs hbs
    simp only [exceptMapList] at hbs
    injection hbs with hbs
    subst hbs
    rfl
  | cons a rest ih =>
    intro bs hbs
    simp only [exceptMapList] at hbs
    cases hfa : f a with
    | error e => rw [hfa] at hbs; cases hbs
    | ok b =>
      rw [hfa] at hbs
      cases hrest : exceptMapList f rest with
      | error e => rw [hrest] at hbs; cases hbs
      | ok bs0 =>
        rw [hrest] at hbs
        injection hbs with hbs
        subst hbs
        simp [hfg a b hfa, ih bs0 hrest]

theorem exceptMapList_ok_mem {α β : Type} (f : α → Except String β)
    (l : List α) (bs : List β) (h : exceptMapList f l = Except.ok bs)
    (b : β) (hb : b ∈ bs) : ∃ a, a ∈ l ∧ f a = Except.ok b := by
  induction l generalizing bs with
  | nil =>
    simp only [exceptMapList] at h
    injection h with h
    subst h
    cases hb
  | cons a rest ih =>
    simp only [exceptMapList] at h
    cases hfa : f a with
    | error e => rw [hfa] at h; cases h
    | ok b0 =>
      rw [hfa] at h
      cases hrest : exceptMapList f rest with
      | error e => rw [hrest] at h; cases h
      | ok bs0 =>
        rw [hrest] at h
        injection h with h
        subst h
        rcases List.mem_cons.mp hb with rfl | hmem
        · exact ⟨a, List.mem_cons_self a rest, hfa⟩
        · rcases ih bs0 hrest hmem with ⟨a0, ha0, hfa0⟩
          exact ⟨a0, List.mem_cons_of_mem a ha0, hfa0⟩

theorem exceptMapList_error_of_mem {α β : Type} (f : α → Except String β)
    (l : List α) (a : α) (ha : a ∈ l) (e : String)
    (hfa : f a = Except.error e) :
    ∃ e0, exceptMapList f l = Except.error e0 := by
  induction l with
  | nil => cases ha
  | cons x rest ih =>
    simp only [exceptMapList]
    cases hfx : f x with
    | error e1 => exact ⟨e1, rfl⟩
    | ok b =>
      rcases List.mem_cons.mp ha with rfl | hmem
      · rw [hfx] at hfa; cases hfa
      · rcases ih hmem with ⟨e0, he0⟩
        rw [he0]
        exact ⟨e0, rfl⟩

theorem assembleOutlookThread_ok_id
    (fetchConv : String → Option GraphMessagesResponse)
    (plans : List ExecutedRuleRecord) (category : String → Option String)
    (conv : Conversation) (t : OutlookThreadOut)
    (h : assembleOutlookThread fetchConv plans category conv =
      Except.ok t) : t.id = conv.id := by
  simp only [assembleOutlookThread] at h
  cases hf : fetchConv conv.id with
  | none => rw [hf] at h; cases h
  | some res =>
    rw [hf] at h
    injection h with h
    subst h
    rfl

theorem assembleOutlookThread_ok_snippet
    (fetchConv : String → Option GraphMessagesResponse)
    (plans : List ExecutedRuleRecord) (category : String → Option String)
    (conv : Conversation) (t : OutlookThreadOut)
    (h : assembleOutlookThread fetchConv plans category conv =
      Except.ok t) :
    t.snippet = (t.messages.head?.bind (fun m => m.bodyPreview)).getD "" := by
  simp only [assembleOutlookThread] at h
  cases hf : fetchConv conv.id with
  | none => rw [hf] at h; cases h
  | some res =>
    rw [hf] at h
    injection h with h
    subst h
    rfl

theorem outlook_core_ok_ids (emailAccountId : String)
    (convs : List Conversation)
    (fetchConv : String → Option GraphMessagesResponse)
    (store : List ExecutedRuleRecord) (category : String → Option String)
    (threads : List OutlookThreadOut)
    (h : getOutlookThreadsCore emailAccountId convs fetchConv store
      category = Except.ok threads) :
    threads.map (fun t => t.id) = convs.map (fun c => c.id) := by
  simp only [getOutlookThreadsCore] at h
  exact exceptMapList_ok_map _ (fun t => t.id) (fun c => c.id)
    (fun c t hc => assembleOutlookThread_ok_id _ _ _ c t hc) convs threads h

/-- Counterexample for C1: a page of two conversations `A`, `B` where
only `B`'s message fetch fails makes the whole `getOutlookThreads`
result an error (the per-conversation fetches sit inside `Promise.all`
with no try/catch), while the same page with both fetches succeeding is
returned fine — so a per-thread message-fetch failure does cause the
whole result to be an error. -/
theorem claim1_counterexample :
    (getOutlookThreads "token" "acct" ⟨none, none, none, none, none, none⟩
        (fun _ => ⟨some [⟨"A"⟩, ⟨"B"⟩], none⟩)
        (fun i => if i == "A" then some ⟨some []⟩ else none)
        [] (fun _ => none)).isOk = false ∧
    (getOutlookThreads "token" "acct" ⟨none, none, none, none, none, none⟩
        (fun _ => ⟨some [⟨"A"⟩, ⟨"B"⟩], none⟩)
        (fun _ => some ⟨some []⟩)
        [] (fun _ => none)).isOk = true :=
  ⟨rfl, rfl⟩

/-- C1 (amended): for the Gmail pipeline `getThreads`, a per-thread
message-fetch failure only drops that thread — with any nonempty access
token the call succeeds and the returned thread ids are exactly the
provider page's ids restricted to those whose fetch succeeded (with a
truthy id); for the Outlook pipeline `getOutlookThreads`, a single
per-conversation message-fetch failure makes the whole call an
error. -/
theorem claim1_partial_failure :
    (∀ (accessToken emailAccountId : String) (query : ThreadsQuery)
        (prov : GmailListRequest → GmailPage)
        (fetch : String → Option GmailThreadData)
        (parse : FullGmailThread → List ParsedMessage)
        (decodeSnippet : Option String → String)
        (store : List ExecutedRuleRecord)
        (category : String → Option String),
      accessToken ≠ "" →
      ∃ r, getThreads accessToken emailAccountId query prov fetch parse
          decodeSnippet store category = Except.ok r ∧
        r.threads.map (fun t => t.id) =
          (pageThreadIds (prov (gmailRequest query))).filter
            (fun i => (fetch i).isSome && !(i == ""))) ∧
    (∀ (accessToken emailAccountId : String) (query : OutlookQuery)
        (prov : GraphRequest → GraphListResponse)
        (fetchConv : String → Option GraphMessagesResponse)
        (store : List ExecutedRuleRecord)
        (category : String → Option String) (c : Conversation),
      c ∈ (prov (buildGraphRequest query)).value.getD [] →
      fetchConv c.id = none →
      ∃ e, getOutlookThreads accessToken emailAccountId query prov
          fetchConv store category = Except.error e) := by
  constructor
  · intro accessToken emailAccountId query prov fetch parse decodeSnippet
      store category h
    refine ⟨getThreadsCore emailAccountId (prov (gmailRequest query))
      fetch parse decodeSnippet store category, ?_, ?_⟩
    · simp [getThreads, h]
    · simp only [getThreadsCore]
      exact gmail_assemble_map_id fetch parse decodeSnippet _ category _
  · intro accessToken emailAccountId query prov fetchConv store category
      c hc hfc
    by_cases h : accessToken = ""
    · exact ⟨"Missing access token", by simp [getOutlookThreads, h]⟩
    · have hassemble : assembleOutlookThread fetchConv
          (findExecutedRules store emailAccountId
            (((prov (buildGraphRequest query)).value.getD []).map
              (fun c => c.id)))
          category c = Except.error "Failed to fetch conversation messages" := by
        simp [assembleOutlookThread, hfc]
      rcases exceptMapList_error_of_mem _ _ c hc _ hassemble with ⟨e0, he0⟩
      refine ⟨e0, ?_⟩
      simp only [getOutlookThreads]
      rw [if_neg (by simpa using h)]
      simp only [getOutlookThreadsCore]
      rw [he0]

/-- Witness for C1 (amended): a Gmail page `[A, B]` where only `A`'s
fetch succeeds still yields a successful call, and an Outlook page
whose only conversation's fetch fails yields an error. -/
theorem claim1_witness :
    (getThreads "token" "acct" ⟨none, none, none, none, none, none⟩
        (fun _ => ⟨some [⟨some "A"⟩, ⟨some "B"⟩], none⟩)
        (fun i => if i == "A" then some ⟨some "s"⟩ else none)
        (fun _ => []) (fun o => o.getD "") [] (fun _ => none)).isOk =
      true ∧
    (getOutlookThreads "token" "acct" ⟨none, none, none, none, none, none⟩
        (fun _ => ⟨some [⟨"B"⟩], none⟩) (fun _ => none) []
        (fun _ => none)).isOk = false := by
  constructor
  · rcases claim1_partial_failure.1 "token" "acct"
        ⟨none, none, none, none, none, none⟩
        (fun _ => ⟨some [⟨some "A"⟩, ⟨some "B"⟩], none⟩)
        (fun i => if i == "A" then some ⟨some "s"⟩ else none)
        (fun _ => []) (fun o => o.getD "") [] (fun _ => none)
        (by decide) with ⟨r, hr, _⟩
    rw [hr]
    rfl
  · rcases claim1_partial_failure.2 "token" "acct"
        ⟨none, none, none, none, none, none⟩
        (fun _ => ⟨some [⟨"B"⟩], none⟩) (fun _ => none) []
        (fun _ => none) ⟨"B"⟩ (by decide) rfl with ⟨e, he⟩
    rw [he]
    rfl

/-- C4: join soundness — every thread in the `getThreads` output has a
thread identifier that came from the provider page for that request,
for every record-store and category-store contents. -/
theorem claim4_join_soundness (accessToken emailAccountId : String)
    (query : ThreadsQuery) (prov : GmailListRequest → GmailPage)
    (fetch : String → Option GmailThreadData)
    (parse : FullGmailThread → List ParsedMessage)
    (decodeSnippet : Option String → String)
    (store : List ExecutedRuleRecord)
    (category : String → Option String) (t : GmailThreadOut)
    (ht : t ∈ gmailResultThreads (getThreads accessToken emailAccountId
      query prov fetch parse decodeSnippet store category)) :
    t.id ∈ pageThreadIds (prov (gmailRequest query)) := by
  simp only [getThreads] at ht
  split at ht
  · simp [gmailResultThreads] at ht
  · simp only [gmailResultThreads, getThreadsCore] at ht
    exact (gmail_assemble_mem fetch parse decodeSnippet _ category _ t ht).1

/-- Witness for C4: a concrete run whose single output thread's id `A`
is indeed in the provider page. -/
theorem claim4_witness :
    (⟨"A", [], "s", none, none⟩ : GmailThreadOut).id ∈
      pageThreadIds ((fun _ => (⟨some [⟨some "A"⟩], some "tok"⟩ :
        GmailPage)) (gmailRequest ⟨none, none, none, none, none, none⟩)) :=
  claim4_join_soundness "token" "acct" ⟨none, none, none, none, none, none⟩
    (fun _ => ⟨some [⟨some "A"⟩], some "tok"⟩)
    (fun _ => some ⟨some "s"⟩) (fun _ => []) (fun o => o.getD "") []
    (fun _ => none) ⟨"A", [], "s", none, none⟩ (by decide)

/-- C5: order preservation — the output thread-id sequence of
`getThreads` is a sublist (order-preserving selection) of the provider
page's id sequence, and the output id sequence of `getOutlookThreads`
is a sublist of the Graph page's conversation-id sequence, for all
inputs. -/
theorem claim5_order_preservation
    (accessToken emailAccountId : String) (query : ThreadsQuery)
    (prov : GmailListRequest → GmailPage)
    (fetch : String → Option GmailThreadData)
    (parse : FullGmailThread → List ParsedMessage)
    (decodeSnippet : Option String → String)
    (store : List ExecutedRuleRecord)
    (category : String → Option String)
    (accessTokenO emailAccountIdO : String) (queryO : OutlookQuery)
    (provO : GraphRequest → GraphListResponse)
    (fetchConv : String → Option GraphMessagesResponse)
    (storeO : List ExecutedRuleRecord)
    (categoryO : String → Option String) :
    (gmailResultIds (getThreads accessToken emailAccountId query prov
        fetch parse decodeSnippet store category)).Sublist
      (pageThreadIds (prov (gmailRequest query))) ∧
    (outlookResultIds (getOutlookThreads accessTokenO emailAccountIdO
        queryO provO fetchConv storeO categoryO)).Sublist
      (((provO (buildGraphRequest queryO)).value.getD []).map
        (fun c => c.id)) := by
  constructor
  · by_cases h : accessToken = ""
    · simp [getThreads, h, gmailResultIds]
    · simp only [getThreads]
      rw [if_neg (by simpa using h)]
      simp only [gmailResultIds, getThreadsCore]
      rw [gmail_assemble_map_id]
      exact List.filter_sublist _
  · by_cases h : accessTokenO = ""
    · simp [getOutlookThreads, h, outlookResultIds]
    · simp only [getOutlookThreads]
      rw [if_neg (by simpa using h)]
      cases hcore : getOutlookThreadsCore emailAccountIdO
          ((provO (buildGraphRequest queryO)).value.getD []) fetchConv
          storeO categoryO with
      | error e => simp [outlookResultIds, hcore]
      | ok threads =>
        simp only [hcore, outlookResultIds]
        rw [outlook_core_ok_ids _ _ _ _ _ _ hcore]

/-- Counterexample for C6: a query carrying the empty-string
continuation token is not passed to the provider unchanged — the falsy
coalescing `query.nextPageToken || undefined` turns it into an absent
token. -/
theorem claim6_counterexample :
    (⟨none, none, none, none, none, some ""⟩ :
      ThreadsQuery).nextPageToken = some "" ∧
    (gmailRequest ⟨none, none, none, none, none, some ""⟩).pageToken =
      none ∧
    (none : Option String) ≠ some "" := by
  exact ⟨rfl, rfl, by decide⟩

/-- C6 (amended): every nonempty caller-supplied continuation token is
passed to the provider verbatim (an empty-string token is coalesced to
absent by the falsy check); the Gmail response cursor is the provider's
native cursor verbatim, and the Outlook response cursor is the
provider's native `@odata.nextLink` verbatim whenever that link is not
the empty string (an empty/absent link is coalesced to `null`). -/
theorem claim6_cursor_passthrough :
    (∀ query : ThreadsQuery, query.nextPageToken ≠ some "" →
      (gmailRequest query).pageToken = query.nextPageToken) ∧
    (∀ query : OutlookQuery, query.nextPageToken ≠ some "" →
      (buildGraphRequest query).skipTokenHeader = query.nextPageToken) ∧
    (∀ (accessToken emailAccountId : String) (query : ThreadsQuery)
        (prov : GmailListRequest → GmailPage)
        (fetch : String → Option GmailThreadData)
        (parse : FullGmailThread → List ParsedMessage)
        (decodeSnippet : Option String → String)
        (store : List ExecutedRuleRecord)
        (category : String → Option String) (r : GmailThreadsResult),
      getThreads accessToken emailAccountId query prov fetch parse
        decodeSnippet store category = Except.ok r →
      r.nextPageToken = (prov (gmailRequest query)).nextPageToken) ∧
    (∀ (accessToken emailAccountId : String) (query : OutlookQuery)
        (resp : GraphListResponse)
        (fetchConv : String → Option GraphMessagesResponse)
        (store : List ExecutedRuleRecord)
        (category : String → Option String) (r : OutlookThreadsResult),
      resp.odataNextLink ≠ some "" →
      getOutlookThreads accessToken emailAccountId query (fun _ => resp)
        fetchConv store category = Except.ok r →
      r.nextPageToken = resp.odataNextLink) := by
  refine ⟨?_, ?_, ?_, ?_⟩
  · intro query h
    cases hq : query.nextPageToken with
    | none => simp [gmailRequest, truthyStr, hq]
    | some s =>
      have hs : s ≠ "" := fun he => h (by rw [hq, he])
      simp [gmailRequest, truthyStr, hq, hs]
  · intro query h
    cases hq : query.nextPageToken with
    | none => simp [buildGraphRequest, truthyStr, hq]
    | some s =>
      have hs : s ≠ "" := fun he => h (by rw [hq, he])
      simp [buildGraphRequest, truthyStr, hq, hs]
  · intro accessToken emailAccountId query prov fetch parse decodeSnippet
      store category r hr
    simp only [getThreads] at hr
    split at hr
    · cases hr
    · injection hr with hr
      subst hr
      rfl
  · intro accessToken emailAccountId query resp fetchConv store category
      r hlink hr
    simp only [getOutlookThreads] at hr
    split at hr
    · cases hr
    · split at hr
      · cases hr
      · injection hr with hr
        subst hr
        cases hl : resp.odataNextLink with
        | none => simp [truthyStr, hl]
        | some s =>
          have hs : s ≠ "" := fun he => hlink (by rw [hl, he])
          simp [truthyStr, hl, hs]

/-- Witness for C6 (amended): concrete instances of all four parts. -/
theorem claim6_witness :
    (gmailRequest ⟨none, none, none, none, none,
        some "page-2"⟩).pageToken = some "page-2" ∧
    (buildGraphRequest ⟨none, none, none, none, some "page-2",
        none⟩).skipTokenHeader = some "page-2" ∧
    (⟨[], some "cursor"⟩ : GmailThreadsResult).nextPageToken =
      ((fun _ => (⟨some [], some "cursor"⟩ : GmailPage))
        (gmailRequest ⟨none, none, none, none, none, none⟩)).nextPageToken ∧
    (⟨[], some "link"⟩ : OutlookThreadsResult).nextPageToken =
      (⟨some [], some "link"⟩ : GraphListResponse).odataNextLink := by
  refine ⟨?_, ?_, ?_, ?_⟩
  · exact claim6_cursor_passthrough.1
      ⟨none, none, none, none, none, some "page-2"⟩ (by decide)
  · exact claim6_cursor_passthrough.2.1
      ⟨none, none, none, none, some "page-2", none⟩ (by decide)
  · exact claim6_cursor_passthrough.2.2.1 "token" "acct"
      ⟨none, none, none, none, none, none⟩
      (fun _ => ⟨some [], some "cursor"⟩) (fun _ => none) (fun _ => [])
      (fun o => o.getD "") [] (fun _ => none) ⟨[], some "cursor"⟩ rfl
  · exact claim6_cursor_passthrough.2.2.2 "token" "acct"
      ⟨none, none, none, none, none, none⟩ ⟨some [], some "link"⟩
      (fun _ => none) [] (fun _ => none) ⟨[], some "link"⟩ (by decide) rfl

/-- Counterexample for C7: an Outlook conversation whose messages have
body previews `p0` (first) and `p1` (last) gets snippet `p0` — the
FIRST returned message's preview, not the last message's (`p1`), and
the controller never reads any conversation summary field. -/
theorem claim7_counterexample :
    getOutlookThreadsCore "acct" [⟨"A"⟩]
      (fun _ => some ⟨some [⟨some "p0"⟩, ⟨some "p1"⟩]⟩) []
      (fun _ => none) =
      Except.ok [⟨"A", [⟨some "p0"⟩, ⟨some "p1"⟩], "p0", none, none⟩] ∧
    ([⟨some "p0"⟩, ⟨some "p1"⟩] :
      List OutlookMessage).getLast?.bind (fun m => m.bodyPreview) =
      some "p1" ∧
    ("p0" : String) ≠ "p1" := by
  exact ⟨rfl, rfl, by decide⟩

/-- C7 (amended): the snippet of every retained Gmail thread is the
normalized value of that thread's own summary field (never derived from
its messages); the snippet of every retained Outlook thread is the
FIRST attached message's body preview (empty when there is none); the
reply-tracker response derives its snippet from the LAST message. -/
theorem claim7_snippet_source :
    (∀ (accessToken emailAccountId : String) (query : ThreadsQuery)
        (prov : GmailListRequest → GmailPage)
        (fetch : String → Option GmailThreadData)
        (parse : FullGmailThread → List ParsedMessage)
        (decodeSnippet : Option String → String)
        (store : List ExecutedRuleRecord)
        (category : String → Option String) (t : GmailThreadOut),
      t ∈ gmailResultThreads (getThreads accessToken emailAccountId
        query prov fetch parse decodeSnippet store category) →
      ∃ d, fetch t.id = some d ∧ t.snippet = decodeSnippet d.snippet) ∧
    (∀ (accessToken emailAccountId : String) (query : OutlookQuery)
        (prov : GraphRequest → GraphListResponse)
        (fetchConv : String → Option GraphMessagesResponse)
        (store : List ExecutedRuleRecord)
        (category : String → Option String) (t : OutlookThreadOut),
      t ∈ outlookResultThreads (getOutlookThreads accessToken
        emailAccountId query prov fetchConv store category) →
      t.snippet =
        (t.messages.head?.bind (fun m => m.bodyPreview)).getD "") ∧
    (∀ (threads : List ParsedThread) (e : ReplyTrackerEmail),
      e ∈ replyTrackerEmails threads →
      ∃ th, th ∈ threads ∧
        e.snippet = th.messages.getLast?.bind (fun m => m.snippet)) := by
  refine ⟨?_, ?_, ?_⟩
  · intro accessToken emailAccountId query prov fetch parse decodeSnippet
      store category t ht
    simp only [getThreads] at ht
    split at ht
    · simp [gmailResultThreads] at ht
    · simp only [gmailResultThreads, getThreadsCore] at ht
      exact (gmail_assemble_mem fetch parse decodeSnippet _ category _
        t ht).2
  · intro accessToken emailAccountId query prov fetchConv store category
      t ht
    simp only [getOutlookThreads] at ht
    split at ht
    · simp [outlookResultThreads] at ht
    · split at ht
      · simp [outlookResultThreads] at ht
      · rename_i threads heq
        simp only [outlookResultThreads] at ht
        simp only [getOutlookThreadsCore] at heq
        rcases exceptMapList_ok_mem _ _ _ heq t ht with ⟨conv, _, hconv⟩
        exact assembleOutlookThread_ok_snippet _ _ _ conv t hconv
  · intro threads e he
    simp only [replyTrackerEmails] at he
    rcases List.mem_map.mp he with ⟨th, hth, hbuild⟩
    exact ⟨th, hth, by rw [← hbuild]⟩

/-- Witness for C7 (amended): concrete instances of all three parts. -/
theorem claim7_witness :
    (∃ d, (fun _ => some (⟨some "raw"⟩ : GmailThreadData))
        ((⟨"A", [], "raw", none, none⟩ : GmailThreadOut).id) = some d ∧
      (⟨"A", [], "raw", none, none⟩ : GmailThreadOut).snippet =
        (fun o => o.getD "") d.snippet) ∧
    ((⟨"A", [⟨some "p0"⟩], "p0", none, none⟩ :
        OutlookThreadOut).snippet =
      (((⟨"A", [⟨some "p0"⟩], "p0", none, none⟩ :
          OutlookThreadOut).messages.head?.bind
        (fun m => m.bodyPreview)).getD "")) ∧
    (∃ th, th ∈ ([⟨"T", [⟨⟨some "s1", none, none⟩, some "sn1"⟩,
        ⟨⟨none, none, none⟩, some "sn2"⟩]⟩] : List ParsedThread) ∧
      (⟨"T", none, none, none, some "sn2"⟩ :
        ReplyTrackerEmail).snippet =
        th.messages.getLast?.bind (fun m => m.snippet)) := by
  refine ⟨?_, ?_, ?_⟩
  · exact claim7_snippet_source.1 "token" "acct"
      ⟨none, none, none, none, none, none⟩
      (fun _ => ⟨some [⟨some "A"⟩], none⟩)
      (fun _ => some ⟨some "raw"⟩) (fun _ => []) (fun o => o.getD "")
      [] (fun _ => none) ⟨"A", [], "raw", none, none⟩ (by decide)
  · exact claim7_snippet_source.2.1 "token" "acct"
      ⟨none, none, none, none, none, none⟩
      (fun _ => ⟨some [⟨"A"⟩], none⟩)
      (fun _ => some ⟨some [⟨some "p0"⟩]⟩) [] (fun _ => none)
      ⟨"A", [⟨some "p0"⟩], "p0", none, none⟩ (by decide)
  · exact claim7_snippet_source.2.2
      [⟨"T", [⟨⟨some "s1", none, none⟩, some "sn1"⟩,
        ⟨⟨none, none, none⟩, some "sn2"⟩]⟩]
      ⟨"T", none, none, none, some "sn2"⟩ (by decide)

/-- Counterexample for C8: when no access token is available the route
returns the error payload, but with HTTP status 200 (the
`NextResponse.json` default) — a 2xx status, not the 401-class
(non-2xx) status the claim requires. -/
theorem claim8_counterexample :
    outlookThreadsGET "acct" none ⟨none, none, none, none, none, none⟩
      (fun _ => ⟨some [], none⟩) (fun _ => none) [] (fun _ => none) =
      Except.ok ⟨200, RouteBody.errorBody "Account not found"⟩ ∧
    is2xx 200 = true :=
  ⟨rfl, rfl⟩

/-- C8 (amended): whenever no access token is available (absent or
empty), the route answers the error payload `Account not found` without
any provider interaction (the response is a constant, whatever the
provider and fetch oracles do) — but with HTTP status 200, not a
non-2xx status; and the controller itself, called with an empty token,
fails with the authentication error before any provider call. -/
theorem claim8_unauthenticated (emailAccountId : String)
    (accessToken : Option String) (query : OutlookQuery)
    (prov : GraphRequest → GraphListResponse)
    (fetchConv : String → Option GraphMessagesResponse)
    (store : List ExecutedRuleRecord)
    (category : String → Option String)
    (h : accessToken = none ∨ accessToken = some "") :
    outlookThreadsGET emailAccountId accessToken query prov fetchConv
      store category =
      Except.ok ⟨200, RouteBody.errorBody "Account not found"⟩ ∧
    getOutlookThreads "" emailAccountId query prov fetchConv store
      category = Except.error "Missing access token" := by
  constructor
  · rcases h with rfl | rfl <;> rfl
  · rfl

/-- Witness for C8 (amended): a concrete absent token. -/
theorem claim8_witness :
    outlookThreadsGET "acct" none ⟨none, none, none, none, none, none⟩
      (fun _ => ⟨some [⟨"A"⟩], some "link"⟩) (fun _ => none) []
      (fun _ => none) =
      Except.ok ⟨200, RouteBody.errorBody "Account not found"⟩ ∧
    getOutlookThreads "" "acct" ⟨none, none, none, none, none, none⟩
      (fun _ => ⟨some [⟨"A"⟩], some "link"⟩) (fun _ => none) []
      (fun _ => none) = Except.error "Missing access token" :=
  claim8_unauthenticated "acct" none ⟨none, none, none, none, none, none⟩
    (fun _ => ⟨some [⟨"A"⟩], some "link"⟩) (fun _ => none) []
    (fun _ => none) (Or.inl rfl)
